import Mathlib

/-!
Verification of the Moonlight client/server pairing protocol declared in
`src/moonlight/moonlight/protocol.hpp` (namespace `moonlight::pair`).

The repository ships only the declaration header: the four phase functions
(`get_server_cert`, `send_server_challenge`, `get_client_hash`, `client_pair`)
and the key derivation `gen_aes_key` are declared with detailed doc comments
but their bodies are not part of the sources.  Each operation below is
therefore modelled from the specification and the header's doc comments,
over an abstract interface of cryptographic primitives (the spec's "Crypto
Primitives" leaf component: pure functions, no state).

Byte strings (`std::string` in the C++ interface) are modelled as `List Nat`.
The response `ptree` is modelled as an association list from field names to
byte-string values.
-/

namespace Wolf

/-- Byte strings: the `std::string` values flowing through the protocol. -/
abbrev Bytes := List Nat

/-- Abstract interface of the crypto primitives the protocol consumes
(AES-128 encrypt/decrypt, SHA-256, RSA sign/verify).  Decryption is
fallible (`none` models a decryption failure), everything is pure. -/
structure Crypto where
  sha256 : Bytes → Bytes
  aes_encrypt : Bytes → Bytes → Bytes
  aes_decrypt : Bytes → Bytes → Option Bytes
  sign : Bytes → Bytes → Bytes
  verify : Bytes → Bytes → Bytes → Bool

/-- Response document: a structured tree of named fields, modelled as an
association list (the serializer that renders it as XML is out of scope). -/
abbrev PTree := List (String × Bytes)

/-- Status-code field value of a successful phase response. -/
def status_ok : Bytes := [200]

/-- Status-code field value of a rejected attempt. -/
def status_fail : Bytes := [400]

/-- Modelled from the spec: the single externally visible rejection response.
Every protocol rejection (failed decryption in phase 2 or 3, failed
verification in phase 4, out-of-order phase request) collapses to this one
tree, so the response never reveals which check failed. -/
def pair_failure : PTree := [("paired", [0]), ("status_code", status_fail)]

/-- Modelled from the spec: `gen_aes_key` derives the shared AES key as the
first 16 bytes of `SHA256(salt ++ pin)` (header doc: `SHA256(SALT + PIN)[0:16]`).
The implementation is not under src/; only its declaration is. -/
def gen_aes_key (C : Crypto) (salt pin : Bytes) : Bytes :=
  (C.sha256 (salt ++ pin)).take 16

/-- Modelled from the spec: pairing phase 1 (`get_server_cert`).  The
implementation is not under src/.  Returns the response carrying the host's
plain certificate and, out of band, the derived AES key. -/
def get_server_cert (C : Crypto) (user_pin salt server_cert_pem : Bytes) :
    PTree × Bytes :=
  ([("plaincert", server_cert_pem), ("paired", [1]), ("status_code", status_ok)],
   gen_aes_key C salt user_pin)

/-- Modelled from the spec: pairing phase 2 (`send_server_challenge`).  The
implementation is not under src/.  Decrypts the client challenge with the
AES key; on success answers with
`AES_enc(SHA256(decrypted ++ server_cert_signature ++ server_secret) ++ server_challenge)`
as `challengeresponse`; on decryption failure answers with the opaque
rejection response.  The generated secrets are returned for the caller's
session bookkeeping. -/
def send_server_challenge (C : Crypto)
    (aes_key client_challenge server_cert_signature
     server_secret server_challenge : Bytes) :
    PTree × (Bytes × Bytes) :=
  match C.aes_decrypt aes_key client_challenge with
  | none => (pair_failure, (server_secret, server_challenge))
  | some decrypted =>
    let h := C.sha256 (decrypted ++ server_cert_signature ++ server_secret)
    let challengeresponse := C.aes_encrypt aes_key (h ++ server_challenge)
    ([("challengeresponse", challengeresponse),
      ("paired", [1]), ("status_code", status_ok)],
     (server_secret, server_challenge))

/-- Modelled from the spec: pairing phase 3 (`get_client_hash`).  The
implementation is not under src/.  Decrypts `server_challenge_resp` to
recover the client hash (returned as the second component), and signs
`server_cert_signature ++ server_secret` with the host private key as the
`pairingsecret` field.  The C++ declaration does not list
`server_cert_signature` as a parameter even though its own doc comment and
the spec say it is part of the signed material, so the modelled function
takes it explicitly. -/
def get_client_hash (C : Crypto)
    (aes_key server_cert_signature server_secret
     server_challenge_resp server_cert_private_key : Bytes) :
    PTree × Bytes :=
  match C.aes_decrypt aes_key server_challenge_resp with
  | none => (pair_failure, [])
  | some client_hash =>
    let pairingsecret :=
      C.sign server_cert_private_key (server_cert_signature ++ server_secret)
    ([("pairingsecret", pairingsecret),
      ("paired", [1]), ("status_code", status_ok)],
     client_hash)

/-- Modelled from the spec: pairing phase 4 (`client_pair`).  The
implementation is not under src/.  Extracts the client secret as the first
16 bytes of `client_pairing_secret` (the remainder being the client's
signature over it), recomputes
`SHA256(server_challenge ++ client_public_cert_signature ++ client_secret)`
against `client_hash`, verifies the signature with the client certificate
public key, and answers `paired = 1` exactly when both checks pass. -/
def client_pair (C : Crypto)
    (aes_key server_challenge client_hash client_pairing_secret
     client_public_cert_signature client_cert_public_key : Bytes) : PTree :=
  let client_secret := client_pairing_secret.take 16
  let client_secret_signature := client_pairing_secret.drop 16
  let expected :=
    C.sha256 (server_challenge ++ client_public_cert_signature ++ client_secret)
  if expected = client_hash ∧
      C.verify client_cert_public_key client_secret client_secret_signature = true
  then [("paired", [1]), ("status_code", status_ok)]
  else pair_failure

/-- A concrete instance of the crypto interface, used to exercise the
protocol model on closed inputs: encryption is the identity (so decryption
always succeeds and inverts it), hashing is a 32-byte digest of the input,
and a signature is the key followed by the message. -/
def idCrypto : Crypto where
  sha256 := fun m => (List.range 32).map (fun i => (i + m.length) % 256)
  aes_encrypt := fun _ m => m
  aes_decrypt := fun _ c => some c
  sign := fun k m => k ++ m
  verify := fun pk m s => decide (s = pk ++ m)

/-- A variant of `idCrypto` whose decryption fails on the empty ciphertext,
used to exercise the protocol's rejection paths on closed inputs. -/
def optCrypto : Crypto :=
  { idCrypto with aes_decrypt := fun _ c => if c = [] then none else some c }

/-- Client-side model: the client encrypts its random nonce with the AES key
it derived independently from the same salt and pin. -/
def client_encrypted_challenge (C : Crypto) (aes_key client_nonce : Bytes) :
    Bytes :=
  C.aes_encrypt aes_key client_nonce

/-- Client-side model: the client decrypts the host's `challengeresponse`
and reads the server challenge as everything after the 32-byte digest. -/
def client_read_server_challenge (C : Crypto)
    (aes_key challengeresponse : Bytes) : Bytes :=
  ((C.aes_decrypt aes_key challengeresponse).getD []).drop 32

/-- Client-side model: the client's phase-3 message, the AES encryption of
its hash over the server challenge, its own certificate signature and its
secret. -/
def client_challenge_response (C : Crypto)
    (aes_key server_challenge client_cert_signature client_secret : Bytes) :
    Bytes :=
  C.aes_encrypt aes_key
    (C.sha256 (server_challenge ++ client_cert_signature ++ client_secret))

/-- Client-side model: the client's phase-4 pairing secret, its 16-byte
secret followed by its signature over that secret. -/
def client_pairing_secret_msg (C : Crypto)
    (client_private_key client_secret : Bytes) : Bytes :=
  client_secret ++ C.sign client_private_key client_secret

/-- The whole four-phase handshake run in order against a correctly formed
client that derives the same AES key from the same `(salt, pin)`: phase 1
on the host, the client's encrypted challenge into phase 2, the client's
hash response (built from the server challenge it decrypts out of the
phase-2 response) into phase 3, and the client's pairing secret into
phase 4, whose response tree is returned. -/
def pair_flow (C : Crypto)
    (pin salt host_pem host_cert_sig host_private_key
     client_cert_sig client_public_key client_private_key
     client_nonce client_secret server_secret server_challenge : Bytes) :
    PTree :=
  let p1 := get_server_cert C pin salt host_pem
  let aes_key := p1.2
  let client_key := gen_aes_key C salt pin
  let p2 := send_server_challenge C aes_key
    (client_encrypted_challenge C client_key client_nonce)
    host_cert_sig server_secret server_challenge
  let cr := (p2.1.lookup "challengeresponse").getD []
  let sc := client_read_server_challenge C client_key cr
  let p3 := get_client_hash C aes_key host_cert_sig p2.2.1
    (client_challenge_response C client_key sc client_cert_sig client_secret)
    host_private_key
  client_pair C aes_key p2.2.2 p3.2
    (client_pairing_secret_msg C client_private_key client_secret)
    client_cert_sig client_public_key

/-- Pairing session states, as in the spec's state machine. -/
inductive SessionState
  | AWAITING_CLIENT_CHALLENGE
  | AWAITING_CLIENT_RESPONSE
  | AWAITING_CLIENT_PAIRING_SECRET
  | COMPLETE
  | FAILED
deriving DecidableEq, Repr

/-- Rank of a state along the forward-only order of the machine; both
terminal states share the top rank. -/
def SessionState.rank : SessionState → Nat
  | .AWAITING_CLIENT_CHALLENGE => 0
  | .AWAITING_CLIENT_RESPONSE => 1
  | .AWAITING_CLIENT_PAIRING_SECRET => 2
  | .COMPLETE => 3
  | .FAILED => 3

/-- Modelled from the spec: the per-client pairing session record.  The
session store itself is not under src/ (the header's phase functions are
stateless); the spec describes it in §3 and §4. -/
structure Session where
  aes_key : Bytes
  server_secret : Bytes
  server_challenge : Bytes
  client_hash : Bytes
  state : SessionState
deriving DecidableEq, Repr

/-- A phase request as it reaches the session layer.  Phase 2 carries the
two freshly generated secrets as explicit entropy. -/
inductive PhaseReq
  | phase1 (pin salt pem : Bytes)
  | phase2 (client_challenge cert_sig secret challenge : Bytes)
  | phase3 (cert_sig server_challenge_resp private_key : Bytes)
  | phase4 (pairing_secret cert_sig public_key : Bytes)
deriving DecidableEq, Repr

/-- The session state a request needs the stored session to be in before it
may run; `none` for phase 1, which is always allowed. -/
def PhaseReq.expected : PhaseReq → Option SessionState
  | .phase1 _ _ _ => none
  | .phase2 _ _ _ _ => some .AWAITING_CLIENT_CHALLENGE
  | .phase3 _ _ _ => some .AWAITING_CLIENT_RESPONSE
  | .phase4 _ _ _ => some .AWAITING_CLIENT_PAIRING_SECRET

/-- The session store, keyed by client identifier. -/
abbrev Store := List (String × Session)

/-- Replace (or create) the session of one client identifier. -/
def store_put (st : Store) (cid : String) (s : Session) : Store :=
  (cid, s) :: st.filter (fun e => !(e.1 == cid))

/-- Modelled from the spec: the session layer.  A phase-1 request always
discards any previous session for the identifier and starts a fresh one;
any other request runs only when the stored session is in exactly the state
that phase expects, and is otherwise rejected without touching the store.
A phase that runs either advances the session forward or moves it to
`FAILED`. -/
def handle (C : Crypto) (st : Store) (cid : String) : PhaseReq → Store × PTree
  | .phase1 pin salt pem =>
    let r := get_server_cert C pin salt pem
    (store_put st cid ⟨r.2, [], [], [], .AWAITING_CLIENT_CHALLENGE⟩, r.1)
  | .phase2 cc scs e₁ e₂ =>
    match st.lookup cid with
    | none => (st, pair_failure)
    | some s =>
      if s.state = .AWAITING_CLIENT_CHALLENGE then
        let r := send_server_challenge C s.aes_key cc scs e₁ e₂
        match C.aes_decrypt s.aes_key cc with
        | some _ =>
          (store_put st cid
            ⟨s.aes_key, e₁, e₂, s.client_hash, .AWAITING_CLIENT_RESPONSE⟩, r.1)
        | none => (store_put st cid { s with state := .FAILED }, r.1)
      else (st, pair_failure)
  | .phase3 scs scr pk =>
    match st.lookup cid with
    | none => (st, pair_failure)
    | some s =>
      if s.state = .AWAITING_CLIENT_RESPONSE then
        let r := get_client_hash C s.aes_key scs s.server_secret scr pk
        match C.aes_decrypt s.aes_key scr with
        | some h =>
          (store_put st cid
            ⟨s.aes_key, s.server_secret, s.server_challenge, h,
              .AWAITING_CLIENT_PAIRING_SECRET⟩, r.1)
        | none => (store_put st cid { s with state := .FAILED }, r.1)
      else (st, pair_failure)
  | .phase4 cps ccs cpk =>
    match st.lookup cid with
    | none => (st, pair_failure)
    | some s =>
      if s.state = .AWAITING_CLIENT_PAIRING_SECRET then
        let r := client_pair C s.aes_key s.server_challenge s.client_hash
          cps ccs cpk
        if r.lookup "paired" = some [1] then
          (store_put st cid { s with state := .COMPLETE }, r)
        else (store_put st cid { s with state := .FAILED }, r)
      else (st, pair_failure)

/-- Claim C3: `gen_aes_key` returns exactly the first 16 bytes of
`SHA256(salt ++ pin)`; it is deterministic (identical `(salt, pin)` inputs
yield identical output), total with no error path, and its output has
length 16 whenever the digest has its nominal 32 bytes. -/
theorem gen_aes_key_spec (C : Crypto) (salt pin salt' pin' : Bytes)
    (hs : salt = salt') (hp : pin = pin')
    (hlen : (C.sha256 (salt ++ pin)).length = 32) :
    gen_aes_key C salt pin = (C.sha256 (salt ++ pin)).take 16
    ∧ gen_aes_key C salt pin = gen_aes_key C salt' pin'
    ∧ (gen_aes_key C salt pin).length = 16 := by
  subst hs hp
  refine ⟨rfl, rfl, ?_⟩
  simp [gen_aes_key, hlen]

/-- Witness for C3 at concrete inputs. -/
theorem gen_aes_key_spec_witness :
    gen_aes_key idCrypto [1, 2] [3] = (idCrypto.sha256 ([1, 2] ++ [3])).take 16
    ∧ gen_aes_key idCrypto [1, 2] [3] = gen_aes_key idCrypto [1, 2] [3]
    ∧ (gen_aes_key idCrypto [1, 2] [3]).length = 16 :=
  gen_aes_key_spec idCrypto [1, 2] [3] [1, 2] [3] rfl rfl (by simp [idCrypto])

/-- Claim C8: the phase-1 response tree carries the host's plain certificate
under `plaincert` and is entirely independent of the pin and the salt, so
the derived AES key cannot be transmitted through it; the key appears only
in the out-of-band second component, which equals `gen_aes_key salt pin`. -/
theorem get_server_cert_no_key_leak (C : Crypto)
    (pin salt pin' salt' pem : Bytes) :
    (get_server_cert C pin salt pem).1 = (get_server_cert C pin' salt' pem).1
    ∧ (get_server_cert C pin salt pem).1.lookup "plaincert" = some pem
    ∧ (get_server_cert C pin salt pem).2 = gen_aes_key C salt pin := by
  exact ⟨rfl, rfl, rfl⟩

/-- Claim C2: `client_pair` answers `paired = 1` exactly when both the hash
recomputation over `server_challenge ++ client_public_cert_signature ++
client_secret` matches `client_hash` and the client secret's signature
verifies under the client certificate public key; otherwise it answers
`paired = 0` — it always produces a response, never a hard error. -/
theorem client_pair_paired_iff (C : Crypto)
    (aes_key server_challenge client_hash client_pairing_secret
     client_public_cert_signature client_cert_public_key : Bytes) :
    ((client_pair C aes_key server_challenge client_hash client_pairing_secret
        client_public_cert_signature client_cert_public_key).lookup "paired"
      = some [1]
     ∨ (client_pair C aes_key server_challenge client_hash client_pairing_secret
        client_public_cert_signature client_cert_public_key).lookup "paired"
      = some [0])
    ∧ ((client_pair C aes_key server_challenge client_hash client_pairing_secret
        client_public_cert_signature client_cert_public_key).lookup "paired"
      = some [1]
     ↔ (C.sha256 (server_challenge ++ client_public_cert_signature ++
          client_pairing_secret.take 16) = client_hash
        ∧ C.verify client_cert_public_key (client_pairing_secret.take 16)
            (client_pairing_secret.drop 16) = true)) := by
  simp only [client_pair]
  split
  · simp_all [List.lookup]
  · simp_all [pair_failure, List.lookup]

/-- Claim C4: `send_server_challenge` always returns the secret pair
`(server_secret, server_challenge)`; when decryption of the client challenge
succeeds with plaintext `d`, the `challengeresponse` field is the AES
encryption of `SHA256(d ++ server_cert_signature ++ server_secret) ++
server_challenge`; when decryption fails, the response is the opaque
rejection tree, revealing nothing about the cause. -/
theorem send_server_challenge_spec (C : Crypto)
    (aes_key client_challenge server_cert_signature
     server_secret server_challenge : Bytes) :
    (send_server_challenge C aes_key client_challenge server_cert_signature
        server_secret server_challenge).2 = (server_secret, server_challenge)
    ∧ (∀ d, C.aes_decrypt aes_key client_challenge = some d →
        (send_server_challenge C aes_key client_challenge server_cert_signature
            server_secret server_challenge).1.lookup "challengeresponse"
          = some (C.aes_encrypt aes_key
              (C.sha256 (d ++ server_cert_signature ++ server_secret)
                ++ server_challenge)))
    ∧ (C.aes_decrypt aes_key client_challenge = none →
        (send_server_challenge C aes_key client_challenge server_cert_signature
            server_secret server_challenge).1 = pair_failure) := by
  unfold send_server_challenge
  cases h : C.aes_decrypt aes_key client_challenge with
  | none => simp [h]
  | some d => simp [h, List.lookup]

/-- Witness for C4: on a concrete input where decryption succeeds, the
`challengeresponse` field has the specified shape. -/
theorem send_server_challenge_spec_witness :
    (send_server_challenge idCrypto [1] [2] [3] [4] [5]).1.lookup
        "challengeresponse"
      = some (idCrypto.aes_encrypt [1]
          (idCrypto.sha256 ([2] ++ [3] ++ [4]) ++ [5])) :=
  (send_server_challenge_spec idCrypto [1] [2] [3] [4] [5]).2.1 [2] rfl

/-- Claim C5: when decryption of `server_challenge_resp` succeeds,
`get_client_hash` returns the decrypted client hash as its second component
and its `pairingsecret` field is the host-private-key signature of
`server_cert_signature ++ server_secret`; when decryption fails, the
response is the opaque rejection tree. -/
theorem get_client_hash_spec (C : Crypto)
    (aes_key server_cert_signature server_secret
     server_challenge_resp server_cert_private_key : Bytes) :
    (∀ h, C.aes_decrypt aes_key server_challenge_resp = some h →
        (get_client_hash C aes_key server_cert_signature server_secret
            server_challenge_resp server_cert_private_key).2 = h
        ∧ (get_client_hash C aes_key server_cert_signature server_secret
            server_challenge_resp server_cert_private_key).1.lookup
              "pairingsecret"
          = some (C.sign server_cert_private_key
              (server_cert_signature ++ server_secret)))
    ∧ (C.aes_decrypt aes_key server_challenge_resp = none →
        (get_client_hash C aes_key server_cert_signature server_secret
            server_challenge_resp server_cert_private_key).1 = pair_failure) := by
  unfold get_client_hash
  cases h : C.aes_decrypt aes_key server_challenge_resp with
  | none => simp [h]
  | some d => simp [h, List.lookup]

/-- Witness for C5: on a concrete input where decryption succeeds, the hash
comes back decrypted and `pairingsecret` is the specified signature. -/
theorem get_client_hash_spec_witness :
    (get_client_hash idCrypto [1] [2] [3] [4] [5]).2 = [4]
    ∧ (get_client_hash idCrypto [1] [2] [3] [4] [5]).1.lookup "pairingsecret"
      = some (idCrypto.sign [5] ([2] ++ [3])) :=
  (get_client_hash_spec idCrypto [1] [2] [3] [4] [5]).1 [4] rfl

/-- Rejected phase-4 responses all equal the one opaque rejection tree. -/
theorem client_pair_rejected_eq_failure (C : Crypto)
    (aes_key server_challenge client_hash client_pairing_secret
     client_public_cert_signature client_cert_public_key : Bytes)
    (hr : (client_pair C aes_key server_challenge client_hash
        client_pairing_secret client_public_cert_signature
        client_cert_public_key).lookup "paired" = some [0]) :
    client_pair C aes_key server_challenge client_hash client_pairing_secret
      client_public_cert_signature client_cert_public_key = pair_failure := by
  revert hr
  simp only [client_pair]
  split
  · simp [List.lookup]
  · simp

/-- Claim C6: failure indistinguishability.  Any two rejected phase-4
attempts (whatever the reason: hash mismatch, signature failure, or both)
produce identical responses, and those responses also coincide with the
rejection responses of a failed phase 2 and a failed phase 3, so no
protocol rejection reveals which check failed. -/
theorem rejection_indistinguishable (C : Crypto)
    (a₁ s₁ h₁ p₁ g₁ k₁ a₂ s₂ h₂ p₂ g₂ k₂ ak cc scs ss sch
     ak' scs' ss' scr' pk' : Bytes)
    (r₁ : (client_pair C a₁ s₁ h₁ p₁ g₁ k₁).lookup "paired" = some [0])
    (r₂ : (client_pair C a₂ s₂ h₂ p₂ g₂ k₂).lookup "paired" = some [0])
    (f₂ : C.aes_decrypt ak cc = none)
    (f₃ : C.aes_decrypt ak' scr' = none) :
    client_pair C a₁ s₁ h₁ p₁ g₁ k₁ = client_pair C a₂ s₂ h₂ p₂ g₂ k₂
    ∧ client_pair C a₁ s₁ h₁ p₁ g₁ k₁
      = (send_server_challenge C ak cc scs ss sch).1
    ∧ client_pair C a₁ s₁ h₁ p₁ g₁ k₁
      = (get_client_hash C ak' scs' ss' scr' pk').1 := by
  have e₁ := client_pair_rejected_eq_failure C a₁ s₁ h₁ p₁ g₁ k₁ r₁
  have e₂ := client_pair_rejected_eq_failure C a₂ s₂ h₂ p₂ g₂ k₂ r₂
  refine ⟨e₁.trans e₂.symm, ?_, ?_⟩
  · rw [e₁]; simp [send_server_challenge, f₂]
  · rw [e₁]; simp [get_client_hash, f₃]

/-- Witness for C6: two concrete rejected phase-4 inputs (one failing the
hash check, one failing the signature check), a concrete failed phase 2 and
a concrete failed phase 3 all yield the same response. -/
theorem rejection_indistinguishable_witness :
    client_pair optCrypto [0] [1] [] [2] [3] [4]
      = client_pair optCrypto [0] [1] [] [5] [6] [7]
    ∧ client_pair optCrypto [0] [1] [] [2] [3] [4]
      = (send_server_challenge optCrypto [8] [] [9] [10] [11]).1
    ∧ client_pair optCrypto [0] [1] [] [2] [3] [4]
      = (get_client_hash optCrypto [12] [13] [14] [] [15]).1 :=
  rejection_indistinguishable optCrypto
    [0] [1] [] [2] [3] [4] [0] [1] [] [5] [6] [7]
    [8] [] [9] [10] [11] [12] [13] [14] [] [15]
    (by decide) (by decide) rfl rfl

/-- Claim C10: the declared pairing interface is stateless — every phase
function is a pure function of its arguments, so two calls with identical
arguments (including the explicitly supplied phase-2 secrets) return
identical results and no hidden state influences any output. -/
theorem pair_interface_stateless (C : Crypto) (a b c d e f a' b' c' d' e' f' : Bytes)
    (ha : a = a') (hb : b = b') (hc : c = c')
    (hd : d = d') (he : e = e') (hf : f = f') :
    get_server_cert C a b c = get_server_cert C a' b' c'
    ∧ gen_aes_key C a b = gen_aes_key C a' b'
    ∧ send_server_challenge C a b c d e = send_server_challenge C a' b' c' d' e'
    ∧ get_client_hash C a b c d e = get_client_hash C a' b' c' d' e'
    ∧ client_pair C a b c d e f = client_pair C a' b' c' d' e' f' := by
  subst ha hb hc hd he hf
  exact ⟨rfl, rfl, rfl, rfl, rfl⟩

/-- Witness for C10 at concrete arguments. -/
theorem pair_interface_stateless_witness :
    get_server_cert idCrypto [1] [2] [3] = get_server_cert idCrypto [1] [2] [3]
    ∧ gen_aes_key idCrypto [1] [2] = gen_aes_key idCrypto [1] [2]
    ∧ send_server_challenge idCrypto [1] [2] [3] [4] [5]
      = send_server_challenge idCrypto [1] [2] [3] [4] [5]
    ∧ get_client_hash idCrypto [1] [2] [3] [4] [5]
      = get_client_hash idCrypto [1] [2] [3] [4] [5]
    ∧ client_pair idCrypto [1] [2] [3] [4] [5] [6]
      = client_pair idCrypto [1] [2] [3] [4] [5] [6] :=
  pair_interface_stateless idCrypto [1] [2] [3] [4] [5] [6] [1] [2] [3] [4] [5] [6]
    rfl rfl rfl rfl rfl rfl

/-- Claim C1: end-to-end happy path.  For every pin, salt, host
certificate/key material and client that derives the same AES key from the
same `(salt, pin)`, running `get_server_cert`, `send_server_challenge`,
`get_client_hash` and `client_pair` in order with correctly formed client
messages yields a phase-4 response with `paired = 1`, provided the crypto
primitives are coherent: decryption inverts encryption, digests are 32
bytes, the client's key pair verifies its own signatures, and the client
secret is 16 bytes. -/
theorem pair_flow_happy_path (C : Crypto)
    (pin salt host_pem host_cert_sig host_private_key
     client_cert_sig client_public_key client_private_key
     client_nonce client_secret server_secret server_challenge : Bytes)
    (hdec : ∀ k m, C.aes_decrypt k (C.aes_encrypt k m) = some m)
    (hlen : ∀ m, (C.sha256 m).length = 32)
    (hver : ∀ m, C.verify client_public_key m (C.sign client_private_key m) = true)
    (hcs : client_secret.length = 16) :
    (pair_flow C pin salt host_pem host_cert_sig host_private_key
      client_cert_sig client_public_key client_private_key
      client_nonce client_secret server_secret server_challenge).lookup "paired"
      = some [1] := by
  simp only [pair_flow, get_server_cert, client_encrypted_challenge,
    send_server_challenge, hdec]
  simp [List.lookup, client_read_server_challenge, hdec, Option.getD_some]
  rw [List.drop_left' (hlen _)]
  simp only [client_challenge_response, get_client_hash, hdec]
  simp only [client_pair, client_pairing_secret_msg,
    List.take_left' hcs, List.drop_left' hcs, hver]
  simp [List.lookup]

/-- Witness for C1: the whole handshake run on closed inputs over the
concrete crypto instance ends paired. -/
theorem pair_flow_happy_path_witness :
    (pair_flow idCrypto [1, 2, 3, 4] [5, 6] [10] [11] [12] [13] [7] [7]
      [14] (List.replicate 16 9) [15] [16]).lookup "paired" = some [1] :=
  pair_flow_happy_path idCrypto [1, 2, 3, 4] [5, 6] [10] [11] [12] [13] [7] [7]
    [14] (List.replicate 16 9) [15] [16]
    (fun _ _ => rfl) (fun m => by simp [idCrypto]) (fun m => by simp [idCrypto])
    (by simp)

/-- Looking up a client identifier right after storing its session finds
that session. -/
theorem store_put_lookup (st : Store) (cid : String) (s : Session) :
    (store_put st cid s).lookup cid = some s := by
  simp [store_put, List.lookup]

/-- Claim C9: the session machine only moves strictly forward.  An
out-of-order request (stored session not in the state that phase expects)
is rejected without mutating the store; a non-phase-1 request with no
session is likewise rejected; whenever a phase actually runs, the stored
session's rank strictly increases along
`AWAITING_CLIENT_CHALLENGE → AWAITING_CLIENT_RESPONSE →
AWAITING_CLIENT_PAIRING_SECRET → {COMPLETE, FAILED}`; and a phase-1 request
is the sole exception, discarding any previous session and installing a
fresh one. -/
theorem handle_state_machine (C : Crypto) (st : Store) (cid : String)
    (req : PhaseReq) :
    (∀ s exp, st.lookup cid = some s → req.expected = some exp →
        s.state ≠ exp → handle C st cid req = (st, pair_failure))
    ∧ (∀ exp, st.lookup cid = none → req.expected = some exp →
        handle C st cid req = (st, pair_failure))
    ∧ (∀ s s' exp, req.expected = some exp → st.lookup cid = some s →
        s.state = exp → (handle C st cid req).1.lookup cid = some s' →
        s.state.rank < s'.state.rank)
    ∧ (∀ pin salt pem, req = .phase1 pin salt pem →
        (handle C st cid req).1.lookup cid
          = some ⟨gen_aes_key C salt pin, [], [], [], .AWAITING_CLIENT_CHALLENGE⟩)
  := by
  refine ⟨?_, ?_, ?_, ?_⟩
  · intro s exp hs hexp hne
    cases req with
    | phase1 pin salt pem => simp [PhaseReq.expected] at hexp
    | phase2 cc scs e1 e2 =>
      simp [PhaseReq.expected] at hexp
      subst hexp
      simp [handle, hs, hne]
    | phase3 scs scr pk =>
      simp [PhaseReq.expected] at hexp
      subst hexp
      simp [handle, hs, hne]
    | phase4 cps ccs cpk =>
      simp [PhaseReq.expected] at hexp
      subst hexp
      simp [handle, hs, hne]
  · intro exp hn hexp
    cases req with
    | phase1 pin salt pem => simp [PhaseReq.expected] at hexp
    | phase2 cc scs e1 e2 => simp [handle, hn]
    | phase3 scs scr pk => simp [handle, hn]
    | phase4 cps ccs cpk => simp [handle, hn]
  · intro s s' exp hexp hs hst hlook
    cases req with
    | phase1 pin salt pem => simp [PhaseReq.expected] at hexp
    | phase2 cc scs e1 e2 =>
      simp [PhaseReq.expected] at hexp
      subst hexp
      simp only [handle, hs, hst, if_pos rfl] at hlook
      cases hd : C.aes_decrypt s.aes_key cc with
      | some d =>
        simp [hd, store_put_lookup] at hlook
        subst hlook
        simp [hst, SessionState.rank]
      | none =>
        simp [hd, store_put_lookup] at hlook
        subst hlook
        simp [hst, SessionState.rank]
    | phase3 scs scr pk =>
      simp [PhaseReq.expected] at hexp
      subst hexp
      simp only [handle, hs, hst, if_pos rfl] at hlook
      cases hd : C.aes_decrypt s.aes_key scr with
      | some d =>
        simp [hd, store_put_lookup] at hlook
        subst hlook
        simp [hst, SessionState.rank]
      | none =>
        simp [hd, store_put_lookup] at hlook
        subst hlook
        simp [hst, SessionState.rank]
    | phase4 cps ccs cpk =>
      simp [PhaseReq.expected] at hexp
      subst hexp
      simp only [handle, hs, hst, if_pos rfl] at hlook
      by_cases hp : (client_pair C s.aes_key s.server_challenge s.client_hash
          cps ccs cpk).lookup "paired" = some [1]
      · simp [hp, store_put_lookup] at hlook
        subst hlook
        simp [hst, SessionState.rank]
      · simp [hp, store_put_lookup] at hlook
        subst hlook
        simp [hst, SessionState.rank]
  · intro pin salt pem hreq
    subst hreq
    simp [handle, get_server_cert, store_put_lookup]

/-- Witness for C9: a concrete phase-2 request against an empty store is
rejected without mutating the store. -/
theorem handle_state_machine_witness :
    handle idCrypto [] "c" (.phase2 [1] [2] [3] [4]) = ([], pair_failure) :=
  (handle_state_machine idCrypto [] "c" (.phase2 [1] [2] [3] [4])).2.1
    SessionState.AWAITING_CLIENT_CHALLENGE rfl rfl

end Wolf
